import Mathlib

/-!
Shallow embedding of the request helper `query_hugging_face` from
`prompt_engineering.ipynb` (the only executable component of the
repository), together with theorems settling the specification claims.

The Python function reads two module-level configuration globals
(`API_KEY`, `MODEL_NAME`), builds one HTTP POST request, hands it to the
`requests` transport, and converts every failure into a human-readable
string returned on the same channel as the generated text.

Embedding choices:
- JSON values (and the Python objects produced by `response.json()`) are
  the inductive `Json` below; JSON numbers are rationals (`Rat`), since
  the helper never computes with them, only passes them through.
- The transport (`requests.post`) is an explicit function argument from
  the built request to an outcome: a response, a timeout exception, a
  connection-error exception, or any other exception.
- The stateful parts (the module globals, the single POST side effect)
  are made explicit: the embedded function returns the generated text
  together with the list of POST requests issued and the final global
  configuration state.
- Python exception messages are reproduced as the strings `str(e)`
  yields; for subscripting a JSON number the int/float distinction of
  the message is approximated by whether the rational is an integer.
-/

namespace PromptEngineering

/-- JSON values, also standing for the Python objects `response.json()`
returns. An `obj` models the parsed Python dict (keys unique). -/
inductive Json where
  | null : Json
  | bool (b : Bool) : Json
  | num (q : Rat) : Json
  | str (s : String) : Json
  | arr (elems : List Json) : Json
  | obj (fields : List (String × Json)) : Json

/-- Whether a Python value is a string. -/
def Json.isStr : Json → Bool
  | .str _ => true
  | _ => false

/-- Field lookup in a JSON object; `none` on non-objects or missing keys. -/
def Json.lookupKey : Json → String → Option Json
  | .obj fields, k => fields.lookup k
  | _, _ => none

/-- The module-level configuration globals the notebook reads from
`config.py`: `API_KEY = config.HUGGINGFACE_API_KEY`,
`MODEL_NAME = config.MODEL_NAME`. -/
structure Config where
  API_KEY : String
  MODEL_NAME : String
deriving DecidableEq

/-- One HTTP request as handed to `requests.post(API_URL, headers=...,
json=payload, timeout=10)`: method, URL, header list, JSON payload and
client-side timeout in seconds. -/
structure HttpRequest where
  method : String
  url : String
  headers : List (String × String)
  payload : Json
  timeout : Nat

/-- An HTTP response as the helper observes it: the status code, the
reason phrase, and the outcome of `response.json()` (`Except.error d`
models a JSON decode failure whose `str(e)` is `d`). -/
structure HttpResponse where
  status_code : Nat
  reason : String
  jsonBody : Except String Json

/-- Outcome of handing a request to the transport: a response, or one of
the exceptions `requests.post` can raise (`Timeout`, `ConnectionError`,
or anything else, carrying its `str(e)`). -/
inductive TransportResult where
  | response (r : HttpResponse) : TransportResult
  | timeout : TransportResult
  | connectionError : TransportResult
  | otherExc (detail : String) : TransportResult

/-- The Python exceptions distinguished by the `except` clauses of
`query_hugging_face`, each carrying what its message stringifies to. -/
inductive PyExc where
  | timeout : PyExc
  | connectionError : PyExc
  | httpError (detail : String) : PyExc
  | other (detail : String) : PyExc

/-- Composition of the request exactly as the function body does:
`API_URL = f"https://api-inference.huggingface.co/models/{MODEL_NAME}"`,
`headers = {"Authorization": f"Bearer {API_KEY}"}`, the payload dict,
and `timeout=10` on the POST. -/
def buildRequest (cfg : Config) (prompt : String) (max_length : Int)
    (temperature : Rat) : HttpRequest :=
  ⟨"POST",
   "https://api-inference.huggingface.co/models/" ++ cfg.MODEL_NAME,
   [("Authorization", "Bearer " ++ cfg.API_KEY)],
   Json.obj [("inputs", Json.str prompt),
             ("parameters", Json.obj [("max_new_tokens", Json.num max_length),
                                      ("temperature", Json.num temperature)])],
   10⟩

/-- Embedding of `requests.Response.raise_for_status`: raises `HTTPError`
with message `f"{code} Client Error: {reason} for url: {url}"` for 4xx,
`Server Error` for 5xx, and returns normally otherwise. -/
def raise_for_status (status_code : Nat) (reason url : String) :
    Except PyExc Unit :=
  if 400 ≤ status_code ∧ status_code < 500 then
    Except.error (PyExc.httpError
      ((toString status_code ++ " Client Error: ") ++ reason ++ (" for url: " ++ url)))
  else if 500 ≤ status_code ∧ status_code < 600 then
    Except.error (PyExc.httpError
      ((toString status_code ++ " Server Error: ") ++ reason ++ (" for url: " ++ url)))
  else
    Except.ok ()

/-- Embedding of the Python subscript `response_json[0]`, including the
exceptions it raises on each non-list (or empty) value; each `other`
detail is the `str(e)` of the raised exception. -/
def pyIndexZero : Json → Except PyExc Json
  | .arr [] => Except.error (PyExc.other "list index out of range")
  | .arr (x :: _) => Except.ok x
  | .obj _ => Except.error (PyExc.other "0")
  | .str s =>
      if s.isEmpty then Except.error (PyExc.other "string index out of range")
      else Except.ok (Json.str (String.singleton s.front))
  | .num q =>
      if q.den = 1 then
        Except.error (PyExc.other "\x27int\x27 object is not subscriptable")
      else
        Except.error (PyExc.other "\x27float\x27 object is not subscriptable")
  | .bool _ => Except.error (PyExc.other "\x27bool\x27 object is not subscriptable")
  | .null => Except.error (PyExc.other "\x27NoneType\x27 object is not subscriptable")

/-- Embedding of `x.get('generated_text', default)`: dictionary lookup
with a default on dicts, `AttributeError` on every other Python value. -/
def pyGetOrDefault (x : Json) (key : String) (default : Json) :
    Except PyExc Json :=
  match x with
  | .obj fields => Except.ok ((fields.lookup key).getD default)
  | .str _ => Except.error (PyExc.other "\x27str\x27 object has no attribute \x27get\x27")
  | .arr _ => Except.error (PyExc.other "\x27list\x27 object has no attribute \x27get\x27")
  | .num _ => Except.error (PyExc.other "\x27float\x27 object has no attribute \x27get\x27")
  | .bool _ => Except.error (PyExc.other "\x27bool\x27 object has no attribute \x27get\x27")
  | .null => Except.error (PyExc.other "\x27NoneType\x27 object has no attribute \x27get\x27")

/-- The `try` block of `query_hugging_face`: POST the built request,
`raise_for_status`, parse the body, take element 0, and `.get` the
`generated_text` field with the fixed placeholder as default. An
`Except.error` is an exception reaching the `except` clauses. -/
def tryBody (cfg : Config) (transport : HttpRequest → TransportResult)
    (prompt : String) (max_length : Int) (temperature : Rat) :
    Except PyExc Json :=
  match transport (buildRequest cfg prompt max_length temperature) with
  | .timeout => Except.error PyExc.timeout
  | .connectionError => Except.error PyExc.connectionError
  | .otherExc d => Except.error (PyExc.other d)
  | .response r =>
      match raise_for_status r.status_code r.reason
          (buildRequest cfg prompt max_length temperature).url with
      | Except.error e => Except.error e
      | Except.ok _ =>
          match r.jsonBody with
          | Except.error d => Except.error (PyExc.other d)
          | Except.ok response_json =>
              match pyIndexZero response_json with
              | Except.error e => Except.error e
              | Except.ok first =>
                  pyGetOrDefault first "generated_text"
                    (Json.str "No response generated.")

/-- The string each `except` clause assigns to `generated_text`. -/
def excMessage : PyExc → String
  | .timeout => "Error: The server took too long to respond. Try again later."
  | .connectionError => "Error: Could not connect to Hugging Face API. Check your internet or try later."
  | .httpError d => "HTTP Error: " ++ d
  | .other d => "Error: " ++ d

/-- The observable outcome of one call: the returned value, the POST
requests issued to the transport, and the module configuration state
after the call. -/
structure CallResult where
  generated_text : Json
  posts : List HttpRequest
  finalState : Config

/-- The whole function `query_hugging_face(prompt, max_length=200,
temperature=0.7)`: run the `try` block, map any exception to its
message string, and return. Exactly one POST is issued (the single
`requests.post` call), and no global is assigned, so the final state is
the initial one. -/
def query_hugging_face (cfg : Config) (transport : HttpRequest → TransportResult)
    (prompt : String) (max_length : Int) (temperature : Rat) : CallResult :=
  ⟨(match tryBody cfg transport prompt max_length temperature with
    | Except.ok v => v
    | Except.error e => Json.str (excMessage e)),
   [buildRequest cfg prompt max_length temperature],
   cfg⟩

/-- Calling the helper with both optional parameters omitted: Python
fills in the declared defaults `max_length = 200`, `temperature = 0.7`. -/
def query_hugging_face_defaults (cfg : Config)
    (transport : HttpRequest → TransportResult) (prompt : String) : CallResult :=
  query_hugging_face cfg transport prompt 200 (7 / 10)

/-! Concrete configurations and stub transports used to instantiate the
hypotheses of the theorems below. -/

/-- A concrete configuration (the model name the notebook runs with). -/
def cfgW : Config := ⟨"hf_dummy_key", "tiiuae/falcon-7b-instruct"⟩

/-- Stub transport answering 200 OK with body `[{"generated_text": "2+2=4"}]`. -/
def stub224 : HttpRequest → TransportResult :=
  fun _ => TransportResult.response
    ⟨200, "OK", Except.ok (Json.arr [Json.obj [("generated_text", Json.str "2+2=4")]])⟩

/-- Stub transport that raises a timeout. -/
def stubTimeout : HttpRequest → TransportResult :=
  fun _ => TransportResult.timeout

/-- Stub transport that raises a connection error. -/
def stubConn : HttpRequest → TransportResult :=
  fun _ => TransportResult.connectionError

/-- Stub transport answering 404 Not Found. -/
def stub404 : HttpRequest → TransportResult :=
  fun _ => TransportResult.response ⟨404, "Not Found", Except.ok Json.null⟩

/-- Stub transport answering 301 with a well-formed generation body. -/
def stub301 : HttpRequest → TransportResult :=
  fun _ => TransportResult.response
    ⟨301, "Moved Permanently",
     Except.ok (Json.arr [Json.obj [("generated_text", Json.str "hi")]])⟩

/-- Stub transport answering 200 OK with an empty JSON array body. -/
def stubEmptyArr : HttpRequest → TransportResult :=
  fun _ => TransportResult.response ⟨200, "OK", Except.ok (Json.arr [])⟩

/-- Stub transport answering 200 OK with a non-string `generated_text`. -/
def stubNum : HttpRequest → TransportResult :=
  fun _ => TransportResult.response
    ⟨200, "OK", Except.ok (Json.arr [Json.obj [("generated_text", Json.num 42)]])⟩

/-- Stub transport answering 200 OK with a first element lacking
`generated_text`. -/
def stubNoField : HttpRequest → TransportResult :=
  fun _ => TransportResult.response
    ⟨200, "OK", Except.ok (Json.arr [Json.obj [("other_field", Json.str "x")]])⟩

/-! ## Theorems for the claims -/

/-- C1: if the transport returns a success (2xx) status whose body is a
list whose first element is an object carrying a `generated_text` field,
`query_hugging_face` returns exactly that field's value. -/
theorem claim1_success_returns_generated_text
    (cfg : Config) (t : HttpRequest → TransportResult)
    (p : String) (m : Int) (temp : Rat)
    (code : Nat) (reason : String) (fields : List (String × Json))
    (rest : List Json) (v : Json)
    (ht : t (buildRequest cfg p m temp)
        = TransportResult.response
            ⟨code, reason, Except.ok (Json.arr (Json.obj fields :: rest))⟩)
    (hlo : 200 ≤ code) (hhi : code < 300)
    (hv : fields.lookup "generated_text" = some v) :
    (query_hugging_face cfg t p m temp).generated_text = v := by
  have h4 : ¬(400 ≤ code ∧ code < 500) := by omega
  have h5 : ¬(500 ≤ code ∧ code < 600) := by omega
  simp [query_hugging_face, tryBody, ht, raise_for_status, h4, h5,
        pyIndexZero, pyGetOrDefault, hv]

/-- C1 witness: the spec scenario `generate("2+2=?", maxNewTokens=50,
temperature=0.0)` against a stub returning `[{"generated_text":
"2+2=4"}]` yields `"2+2=4"`. -/
theorem claim1_witness :
    (query_hugging_face cfgW stub224 "2+2=?" 50 0).generated_text
      = Json.str "2+2=4" :=
  claim1_success_returns_generated_text cfgW stub224 "2+2=?" 50 0
    200 "OK" [("generated_text", Json.str "2+2=4")] [] (Json.str "2+2=4")
    rfl (by decide) (by decide) rfl

/-- C2 counterexample: the claim says the function always returns a
string, but on a success body `[{"generated_text": 42}]` the Python
expression `response_json[0].get('generated_text', ...)` yields the
number 42 and the function returns it unchanged — a non-string value. -/
theorem claim2_counterexample :
    (query_hugging_face cfgW stubNum "p" 200 (7 / 10)).generated_text = Json.num 42
  ∧ Json.isStr (query_hugging_face cfgW stubNum "p" 200 (7 / 10)).generated_text
      = false := by
  constructor <;> rfl

/-- C2 (amended): for every input and every transport outcome the
function is total and never raises: either the `try` block produced a
value and that value is returned as-is, or it raised one of the four
exception kinds and the corresponding human-readable message string is
returned on the same channel. (Every failure yields a string; only a
success whose extracted field is a non-string JSON value does not.) -/
theorem claim2_total_no_raise
    (cfg : Config) (t : HttpRequest → TransportResult)
    (p : String) (m : Int) (temp : Rat) :
    (∃ v, tryBody cfg t p m temp = Except.ok v
        ∧ (query_hugging_face cfg t p m temp).generated_text = v)
  ∨ (∃ e, tryBody cfg t p m temp = Except.error e
        ∧ (query_hugging_face cfg t p m temp).generated_text
            = Json.str (excMessage e)) := by
  cases h : tryBody cfg t p m temp with
  | ok v => exact Or.inl ⟨v, rfl, by simp [query_hugging_face, h]⟩
  | error e => exact Or.inr ⟨e, rfl, by simp [query_hugging_face, h]⟩

/-- C3: the JSON body handed to the transport carries the prompt
verbatim under `inputs` and the two generation parameters under
`parameters.max_new_tokens` and `parameters.temperature`; a call
omitting them uses the declared defaults 200 and 0.7. -/
theorem claim3_payload_contents
    (cfg : Config) (t : HttpRequest → TransportResult)
    (p : String) (m : Int) (temp : Rat) :
    (query_hugging_face cfg t p m temp).posts = [buildRequest cfg p m temp]
  ∧ (buildRequest cfg p m temp).payload.lookupKey "inputs" = some (Json.str p)
  ∧ (((buildRequest cfg p m temp).payload.lookupKey "parameters").bind
        (fun ps => ps.lookupKey "max_new_tokens")) = some (Json.num m)
  ∧ (((buildRequest cfg p m temp).payload.lookupKey "parameters").bind
        (fun ps => ps.lookupKey "temperature")) = some (Json.num temp)
  ∧ (query_hugging_face_defaults cfg t p).posts
      = [buildRequest cfg p 200 (7 / 10)] := by
  refine ⟨rfl, ?_, ?_, ?_, rfl⟩ <;> rfl

/-- C4: on a success (2xx) status whose body is a list whose first
element is an object lacking `generated_text`, the function returns the
literal placeholder "No response generated.". -/
theorem claim4_placeholder_on_missing_field
    (cfg : Config) (t : HttpRequest → TransportResult)
    (p : String) (m : Int) (temp : Rat)
    (code : Nat) (reason : String) (fields : List (String × Json))
    (rest : List Json)
    (ht : t (buildRequest cfg p m temp)
        = TransportResult.response
            ⟨code, reason, Except.ok (Json.arr (Json.obj fields :: rest))⟩)
    (hlo : 200 ≤ code) (hhi : code < 300)
    (hv : fields.lookup "generated_text" = none) :
    (query_hugging_face cfg t p m temp).generated_text
      = Json.str "No response generated." := by
  have h4 : ¬(400 ≤ code ∧ code < 500) := by omega
  have h5 : ¬(500 ≤ code ∧ code < 600) := by omega
  simp [query_hugging_face, tryBody, ht, raise_for_status, h4, h5,
        pyIndexZero, pyGetOrDefault, hv]

/-- C4 witness: a 200 OK stub whose first element has only `other_field`
yields the placeholder. -/
theorem claim4_witness :
    (query_hugging_face cfgW stubNoField "q" 200 (7 / 10)).generated_text
      = Json.str "No response generated." :=
  claim4_placeholder_on_missing_field cfgW stubNoField "q" 200 (7 / 10)
    200 "OK" [("other_field", Json.str "x")] []
    rfl (by decide) (by decide) rfl

/-- C5: if the transport raises a timeout, the function returns the
fixed timeout message, for every prompt and parameter choice. -/
theorem claim5_timeout_message
    (cfg : Config) (t : HttpRequest → TransportResult)
    (p : String) (m : Int) (temp : Rat)
    (ht : t (buildRequest cfg p m temp) = TransportResult.timeout) :
    (query_hugging_face cfg t p m temp).generated_text
      = Json.str "Error: The server took too long to respond. Try again later." := by
  simp [query_hugging_face, tryBody, ht, excMessage]

/-- C5 witness: the spec scenario `generate("hello")` (defaults 200 and
0.7) against a stub that times out. -/
theorem claim5_witness :
    (query_hugging_face cfgW stubTimeout "hello" 200 (7 / 10)).generated_text
      = Json.str "Error: The server took too long to respond. Try again later." :=
  claim5_timeout_message cfgW stubTimeout "hello" 200 (7 / 10) rfl

/-- C6: if the transport raises a connection error, the function returns
the fixed connection-error message, for every input. -/
theorem claim6_connection_error_message
    (cfg : Config) (t : HttpRequest → TransportResult)
    (p : String) (m : Int) (temp : Rat)
    (ht : t (buildRequest cfg p m temp) = TransportResult.connectionError) :
    (query_hugging_face cfg t p m temp).generated_text
      = Json.str "Error: Could not connect to Hugging Face API. Check your internet or try later." := by
  simp [query_hugging_face, tryBody, ht, excMessage]

/-- C6 witness: a stub raising a connection error yields the fixed
connection-error message. -/
theorem claim6_witness :
    (query_hugging_face cfgW stubConn "hello" 200 (7 / 10)).generated_text
      = Json.str "Error: Could not connect to Hugging Face API. Check your internet or try later." :=
  claim6_connection_error_message cfgW stubConn "hello" 200 (7 / 10) rfl

/-- C7 counterexample: the claim quantifies over every non-2xx status,
but `raise_for_status` raises only for 400–599; a stub answering 301
(non-2xx) with body `[{"generated_text": "hi"}]` makes the function
return the body's generated text, not an error string containing the
status text. -/
theorem claim7_counterexample :
    (query_hugging_face cfgW stub301 "p" 200 (7 / 10)).generated_text = Json.str "hi"
  ∧ (query_hugging_face cfgW stub301 "p" 200 (7 / 10)).generated_text
      ≠ Json.str ("HTTP Error: " ++ ((toString 301 ++ " Client Error: ")
          ++ "Moved Permanently"
          ++ (" for url: " ++ (buildRequest cfgW "p" 200 (7 / 10)).url))) := by
  refine ⟨rfl, ?_⟩
  intro h
  have : "hi" = "HTTP Error: 301 Client Error: Moved Permanently for url: https://api-inference.huggingface.co/models/tiiuae/falcon-7b-instruct" := by
    injection h
  exact absurd this (by decide)

/-- C7 (amended): if the service answers with a status in 400–599, the
function returns the string "HTTP Error: " followed by the underlying
`HTTPError` message, which contains the status text (reason) of the
failure. -/
theorem claim7_http_error_detail
    (cfg : Config) (t : HttpRequest → TransportResult)
    (p : String) (m : Int) (temp : Rat)
    (code : Nat) (reason : String) (body : Except String Json)
    (ht : t (buildRequest cfg p m temp)
        = TransportResult.response ⟨code, reason, body⟩)
    (hlo : 400 ≤ code) (hhi : code < 600) :
    ∃ pre post,
      (query_hugging_face cfg t p m temp).generated_text
        = Json.str ("HTTP Error: " ++ (pre ++ reason ++ post)) := by
  by_cases h5 : code < 500
  · refine ⟨toString code ++ " Client Error: ",
      " for url: " ++ (buildRequest cfg p m temp).url, ?_⟩
    have hc : 400 ≤ code ∧ code < 500 := ⟨hlo, h5⟩
    simp [query_hugging_face, tryBody, ht, raise_for_status, hc, excMessage]
  · refine ⟨toString code ++ " Server Error: ",
      " for url: " ++ (buildRequest cfg p m temp).url, ?_⟩
    have hc : ¬(400 ≤ code ∧ code < 500) := by omega
    have hs : 500 ≤ code ∧ code < 600 := by omega
    simp [query_hugging_face, tryBody, ht, raise_for_status, hc, hs, excMessage]

/-- C7 witness: a 404 Not Found stub yields an "HTTP Error: ..." string
containing the reason "Not Found". -/
theorem claim7_witness :
    ∃ pre post,
      (query_hugging_face cfgW stub404 "p" 200 (7 / 10)).generated_text
        = Json.str ("HTTP Error: " ++ (pre ++ "Not Found" ++ post)) :=
  claim7_http_error_detail cfgW stub404 "p" 200 (7 / 10)
    404 "Not Found" (Except.ok Json.null) rfl (by decide) (by decide)

/-- C8: every call issues exactly one POST, to the URL composed of the
fixed base path and the configured model name, with the bearer
authorization header and a client-side timeout of 10. -/
theorem claim8_single_post_request
    (cfg : Config) (t : HttpRequest → TransportResult)
    (p : String) (m : Int) (temp : Rat) :
    (query_hugging_face cfg t p m temp).posts
      = [⟨"POST",
          "https://api-inference.huggingface.co/models/" ++ cfg.MODEL_NAME,
          [("Authorization", "Bearer " ++ cfg.API_KEY)],
          Json.obj [("inputs", Json.str p),
                    ("parameters", Json.obj [("max_new_tokens", Json.num m),
                                             ("temperature", Json.num temp)])],
          10⟩] := rfl

/-- C9: the function is stateless: the configuration after a call equals
the configuration before it, and two transports that agree on the single
issued request give identical observable results, so the result depends
only on the arguments, the configuration and the transport's response. -/
theorem claim9_stateless
    (cfg : Config) (t1 t2 : HttpRequest → TransportResult)
    (p : String) (m : Int) (temp : Rat)
    (h : t1 (buildRequest cfg p m temp) = t2 (buildRequest cfg p m temp)) :
    (query_hugging_face cfg t1 p m temp).finalState = cfg
  ∧ query_hugging_face cfg t1 p m temp = query_hugging_face cfg t2 p m temp := by
  have hb : tryBody cfg t1 p m temp = tryBody cfg t2 p m temp := by
    unfold tryBody
    rw [h]
  exact ⟨rfl, by simp [query_hugging_face, hb]⟩

/-- C9 witness: at a concrete configuration and stub, the final state is
the initial one and the transport-agreement determinism holds. -/
theorem claim9_witness :
    (query_hugging_face cfgW stubTimeout "hello" 200 (7 / 10)).finalState = cfgW
  ∧ query_hugging_face cfgW stubTimeout "hello" 200 (7 / 10)
      = query_hugging_face cfgW stubTimeout "hello" 200 (7 / 10) :=
  claim9_stateless cfgW stubTimeout stubTimeout "hello" 200 (7 / 10) rfl

/-- C10: on a success (2xx) status whose body is an empty JSON array,
indexing element 0 raises `IndexError` and the catch-all branch returns
"Error: list index out of range" — not the placeholder
"No response generated.". -/
theorem claim10_empty_array_catch_all
    (cfg : Config) (t : HttpRequest → TransportResult)
    (p : String) (m : Int) (temp : Rat)
    (code : Nat) (reason : String)
    (ht : t (buildRequest cfg p m temp)
        = TransportResult.response ⟨code, reason, Except.ok (Json.arr [])⟩)
    (hlo : 200 ≤ code) (hhi : code < 300) :
    (query_hugging_face cfg t p m temp).generated_text
      = Json.str "Error: list index out of range"
  ∧ (query_hugging_face cfg t p m temp).generated_text
      ≠ Json.str "No response generated." := by
  have h4 : ¬(400 ≤ code ∧ code < 500) := by omega
  have h5 : ¬(500 ≤ code ∧ code < 600) := by omega
  have hmain : (query_hugging_face cfg t p m temp).generated_text
      = Json.str "Error: list index out of range" := by
    simp [query_hugging_face, tryBody, ht, raise_for_status, h4, h5,
          pyIndexZero, excMessage]
  refine ⟨hmain, ?_⟩
  rw [hmain]
  intro h
  have : "Error: list index out of range" = "No response generated." := by
    injection h
  exact absurd this (by decide)

/-- C10 witness: a 200 OK stub with body `[]` yields
"Error: list index out of range" and not the placeholder. -/
theorem claim10_witness :
    (query_hugging_face cfgW stubEmptyArr "p" 200 (7 / 10)).generated_text
      = Json.str "Error: list index out of range"
  ∧ (query_hugging_face cfgW stubEmptyArr "p" 200 (7 / 10)).generated_text
      ≠ Json.str "No response generated." :=
  claim10_empty_array_catch_all cfgW stubEmptyArr "p" 200 (7 / 10)
    200 "OK" rfl (by decide) (by decide)

end PromptEngineering
